import Mathlib

/- Shallow embedding of the two KVEdit scripts: cli_invert_target.py and the
   runner module kvedit_runner. PIL, numpy and torch values are modelled as
   plain functions; the external pretrained models are abstracted as
   deterministic functions, as spec section 9 suggests. -/

/-- One decoded pixel: four 8-bit channels (red, green, blue, alpha). -/
structure RGBA where
  r : Nat
  g : Nat
  b : Nat
  a : Nat

/-- A decoded PIL image: its size, whether the source carries an alpha
channel, and the pixel grid addressed as px row col, the order numpy uses. -/
structure PILImage where
  width : Nat
  height : Nat
  hasAlpha : Bool
  px : Nat → Nat → RGBA

/-- All four channels are 8-bit values. -/
def RGBA.Valid (p : RGBA) : Prop :=
  p.r ≤ 255 ∧ p.g ≤ 255 ∧ p.b ≤ 255 ∧ p.a ≤ 255

/-- Every pixel of the image is an 8-bit pixel. -/
def PILImage.Valid (img : PILImage) : Prop :=
  ∀ y x, (img.px y x).Valid

/-- PIL Image.convert to RGBA: an image without an alpha channel gets a fully
opaque alpha of 255 on every pixel. -/
def PILImage.convertRGBA (img : PILImage) : PILImage :=
  if img.hasAlpha then img
  else { img with hasAlpha := true, px := fun y x => { img.px y x with a := 255 } }

/-- PIL Image.convert to RGB: drop the alpha channel. -/
def PILImage.convertRGB (img : PILImage) : PILImage :=
  { img with hasAlpha := false, px := fun y x => { img.px y x with a := 255 } }

/-- PIL Image.resize: the size tuple is in (width, height) order. Resampling
is modelled as nearest-neighbour sampling; spec section 4.1 allows nearest or
the library default. -/
def PILImage.resize (img : PILImage) (size : Nat × Nat) : PILImage :=
  { width := size.1, height := size.2, hasAlpha := img.hasAlpha,
    px := fun y x => img.px (y * img.height / size.2) (x * img.width / size.1) }

/-- A rank-2 array with its shape and a total index function. -/
structure Tensor2 (α : Type) where
  d0 : Nat
  d1 : Nat
  val : Nat → Nat → α

/-- A rank-3 array with its shape and a total index function. -/
structure Tensor3 (α : Type) where
  d0 : Nat
  d1 : Nat
  d2 : Nat
  val : Nat → Nat → Nat → α

/-- A rank-4 array with its shape and a total index function. -/
structure Tensor4 (α : Type) where
  d0 : Nat
  d1 : Nat
  d2 : Nat
  d3 : Nat
  val : Nat → Nat → Nat → Nat → α

/-- torch unsqueeze at dimension 0 of a rank-2 tensor. -/
def Tensor2.unsqueeze0 {α : Type} (t : Tensor2 α) : Tensor3 α :=
  ⟨1, t.d0, t.d1, fun _ i j => t.val i j⟩

/-- torch unsqueeze at dimension 0 of a rank-3 tensor. -/
def Tensor3.unsqueeze0 {α : Type} (t : Tensor3 α) : Tensor4 α :=
  ⟨1, t.d0, t.d1, t.d2, fun _ i j k => t.val i j k⟩

/-- torch permute with order (2, 0, 1) on a rank-3 tensor. -/
def Tensor3.permute201 {α : Type} (t : Tensor3 α) : Tensor3 α :=
  ⟨t.d2, t.d0, t.d1, fun c y x => t.val y x c⟩

/-- Elementwise map on a rank-3 tensor. -/
def Tensor3.map {α β : Type} (t : Tensor3 α) (f : α → β) : Tensor3 β :=
  ⟨t.d0, t.d1, t.d2, fun i j k => f (t.val i j k)⟩

/-- Elementwise map on a rank-4 tensor. -/
def Tensor4.map {α β : Type} (t : Tensor4 α) (f : α → β) : Tensor4 β :=
  ⟨t.d0, t.d1, t.d2, t.d3, fun i j k l => f (t.val i j k l)⟩

/-- torch.zeros_like: a zero tensor of the same shape. -/
def torch_zeros_like {α : Type} [Zero α] (t : Tensor4 α) : Tensor4 α :=
  ⟨t.d0, t.d1, t.d2, t.d3, fun _ _ _ _ => 0⟩

/-- torch Tensor.expand_as: broadcast the singleton dimensions of m to the
shape of t. -/
def Tensor4.expand_as {β : Type} (m : Tensor4 Bool) (t : Tensor4 β) : Tensor4 Bool :=
  ⟨t.d0, t.d1, t.d2, t.d3, fun b c y x =>
    m.val (if m.d0 = 1 then 0 else b) (if m.d1 = 1 then 0 else c)
      (if m.d2 = 1 then 0 else y) (if m.d3 = 1 then 0 else x)⟩

/-- Boolean-mask assignment: positions where m holds are taken from src, the
rest keep the values of dst. -/
def masked_assign {α : Type} (dst src : Tensor4 α) (m : Tensor4 Bool) : Tensor4 α :=
  ⟨dst.d0, dst.d1, dst.d2, dst.d3, fun b c y x =>
    if m.val b c y x then src.val b c y x else dst.val b c y x⟩

/-- Indexing the leading dimension of a rank-4 tensor. -/
def Tensor4.slice0 {α : Type} (t : Tensor4 α) (i : Nat) : Tensor3 α :=
  ⟨t.d1, t.d2, t.d3, fun a b c => t.val i a b c⟩

/-- einops rearrange from (c, h, w) to (h, w, c). -/
def rearrange_chw_hwc {α : Type} (t : Tensor3 α) : Tensor3 α :=
  ⟨t.d1, t.d2, t.d0, fun h w c => t.val c h w⟩

/-- Channel c of a pixel in the 3-channel numpy layout of an RGB image. -/
def RGBA.channel (p : RGBA) (c : Nat) : Nat :=
  if c = 0 then p.r else if c = 1 then p.g else if c = 2 then p.b else 0

/-- The numpy array of an RGB image rescaled by division by 127.5 minus 1, in
(height, width, channel) layout. -/
def np_rgb_norm (img : PILImage) : Tensor3 ℚ :=
  ⟨img.height, img.width, 3, fun y x c => ((img.px y x).channel c : ℚ) / 127.5 - 1⟩

/-- preprocess_image of both scripts, with Image.open modelled by taking the
decoded image as argument: convert to RGB, resize, rescale 8-bit values into
the range from -1 to 1, permute (2, 0, 1) and unsqueeze dimension 0. -/
def preprocess_image (img : PILImage) (size : Nat × Nat) : Tensor4 ℚ :=
  ((np_rgb_norm ((img.convertRGB).resize size)).permute201).unsqueeze0

/-- The alpha channel of an RGBA image as a rank-2 array: channel index 3 of
the numpy array. -/
def np_alpha (img : PILImage) : Tensor2 Nat :=
  ⟨img.height, img.width, fun y x => (img.px y x).a⟩

/-- load_mask of both scripts, with Image.open modelled by taking the decoded
image as argument: convert to RGBA, resize to (64, 64), take the alpha
channel, unsqueeze twice, and threshold strictly above 128. -/
def load_mask (img : PILImage) : Tensor4 Bool :=
  let mask_img := (img.convertRGBA).resize (64, 64)
  let alpha := np_alpha mask_img
  let mask_tensor := (alpha.unsqueeze0).unsqueeze0
  mask_tensor.map (fun v => decide (v > 128))

/-- Lines 41 and 42 of cli_invert_target.py: z_fg starts as torch.zeros_like
of z_tgt and the positions selected by the channel-broadcast mask are copied
from z_tgt. -/
def make_z_fg {α : Type} [Zero α] (z_tgt : Tensor4 α) (mask : Tensor4 Bool) : Tensor4 α :=
  masked_assign (torch_zeros_like z_tgt) z_tgt (mask.expand_as z_tgt)

/-- Python runtime errors relevant to the modelled module. -/
inductive PyErr where
  | nameError (n : String)
  | typeError
  deriving DecidableEq

/-- A Python callable: its arity and the value its body would produce. -/
structure PyCallable (α : Type) where
  arity : Nat
  body : α

/-- Calling a Python callable with zero arguments raises TypeError unless its
arity is zero. -/
def PyCallable.call0 {α : Type} (f : PyCallable α) : Except PyErr α :=
  if f.arity = 0 then .ok f.body else .error .typeError

/-- collections.defaultdict: the stored entries plus the default factory. -/
structure DefaultDict (κ α : Type) where
  default_factory : PyCallable α
  entries : List (κ × α)

/-- defaultdict item lookup: a missing key calls default_factory with no
arguments and inserts the produced value under the key. -/
def DefaultDict.getItem {κ α : Type} [BEq κ] (d : DefaultDict κ α) (k : κ) :
    Except PyErr (α × DefaultDict κ α) :=
  match d.entries.lookup k with
  | some v => .ok (v, d)
  | none =>
    match d.default_factory.call0 with
    | .ok v => .ok (v, { d with entries := (k, v) :: d.entries })
    | .error e => .error e

/-- Line 58 of the runner: the feature cache is a defaultdict whose factory is
the lambda taking one argument (so its arity is 1) with body
torch.zeros_like of z_bg, and no stored entries. -/
def feature_dict (κ : Type) (z_bg : Tensor4 ℚ) : DefaultDict κ (Tensor4 ℚ) :=
  ⟨⟨1, torch_zeros_like z_bg⟩, []⟩

/-- Modelled from the spec: SamplingOptions is defined by the external flux
sampling library and is missing from this repository; per spec section 6 it
carries the target prompt and related generation parameters, and the runner
reads only the target prompt. -/
structure SamplingOptions where
  target_prompt : String

/-- The conditioning dictionary returned by the external flux prepare call: a
mapping from names to tensors. -/
def Conditioning : Type := List (String × Tensor4 ℚ)

/-- The info bundle built at lines 60 to 63 of the runner: the starting
timestep and the feature cache. -/
structure Info where
  t : Int
  feature : DefaultDict String (Tensor4 ℚ)

/-- Error kinds of the failure taxonomy in spec section 7. -/
inductive ErrKind where
  | FileNotFound
  | DecodeError
  | InvalidMask
  | DeserializationError
  | IOError
  deriving DecidableEq

/-- The filesystem visible to one script run: file contents by path, plus the
set of created directories. -/
structure FS where
  files : List (String × List Nat)
  dirs : List String

/-- Read the bytes stored at a path. -/
def FS.read (fs : FS) (p : String) : Option (List Nat) :=
  fs.files.lookup p

/-- Write bytes at a path, replacing any previous content. -/
def FS.write (fs : FS) (p : String) (bs : List Nat) : FS :=
  { fs with files := (p, bs) :: fs.files }

/-- os.makedirs with exist_ok set: it raises FileNotFoundError on the empty
path and otherwise records the directory. -/
def os_makedirs (fs : FS) (p : String) : Except ErrKind FS :=
  if p = "" then .error .FileNotFound else .ok { fs with dirs := p :: fs.dirs }

/-- Index of the last occurrence of a character in a list. -/
def lastIdxOf (cs : List Char) (ch : Char) : Option Nat :=
  match cs with
  | [] => none
  | c :: rest =>
    match lastIdxOf rest ch with
    | some i => some (i + 1)
    | none => if c = ch then some 0 else none

/-- posixpath basename: everything after the last slash. -/
def os_path_basename (p : String) : String :=
  String.mk (p.data.foldl (fun acc c => if c = '/' then [] else acc ++ [c]) [])

/-- posixpath splitext: split at the last dot, unless that dot lies before the
last slash or only dots stand between the last slash and it. -/
def os_path_splitext (p : String) : String × String :=
  let cs := p.data
  let fstart : Nat :=
    match lastIdxOf cs '/' with
    | some i => i + 1
    | none => 0
  match lastIdxOf cs '.' with
  | none => (p, "")
  | some d =>
    if fstart ≤ d && ((cs.drop fstart).take (d - fstart)).any (fun c => c != '.') then
      (String.mk (cs.take d), String.mk (cs.drop d))
    else (p, "")

/-- posixpath join of two components: an absolute second component wins;
otherwise the two are glued with a slash unless the first is empty or already
ends in a slash. -/
def os_path_join (a b : String) : String :=
  if b.data.head? = some '/' then b
  else if a = "" || a.data.getLast? = some '/' then a ++ b
  else a ++ "/" ++ b

/-- posixpath dirname: the part before the last slash, with trailing slashes
stripped unless the result consists only of slashes; the empty string when
there is no slash. -/
def os_path_dirname (p : String) : String :=
  match lastIdxOf p.data '/' with
  | none => ""
  | some i =>
    let head := p.data.take (i + 1)
    if head.any (fun c => c != '/') then
      String.mk ((head.reverse.dropWhile (fun c => c == '/')).reverse)
    else String.mk head

/-- The external pretrained collaborators of both scripts: the flux
autoencoder, the prompt encoders, the kv-edit diffusion model and the torch
and PIL codecs, abstracted as fixed deterministic functions as spec section 9
suggests. -/
structure ExtModels where
  decodeImage : List Nat → Option PILImage
  encode : Tensor4 ℚ → Tensor4 ℚ
  toBFloat16 : ℚ → ℚ
  toFloat32 : ℚ → ℚ
  serialize : Tensor4 ℚ → List Nat
  deserialize : List Nat → Option (Tensor4 ℚ)
  prepare : Tensor4 ℚ → String → Conditioning
  denoise : Tensor4 ℚ → Tensor4 ℚ → Conditioning → Tensor4 Bool → SamplingOptions → Info → Tensor4 ℚ
  decode : Tensor4 ℚ → Tensor4 ℚ
  imageBytes : Tensor3 Nat → List Nat

/-- Line 65 of the runner: clamp the decoded tensor into the range from -1 to
1, take batch element 0, rearrange to (h, w, c), rescale by 127.5 times the
value plus one, and truncate to an unsigned 8-bit integer. -/
def to_uint8_hwc (x : Tensor4 ℚ) : Tensor3 Nat :=
  let xc := x.map (fun q => max (-1 : ℚ) (min 1 q))
  let x0 := rearrange_chw_hwc (xc.slice0 0)
  x0.map (fun q => (Rat.floor ((q + 1) * 127.5)).toNat)

/-- The save path computed at lines 45 and 46 of cli_invert_target.py: the
save directory joined with the string z_fg_ followed by the
extension-stripped basename of the target image followed by the suffix. -/
def cli_save_path (save_dir target_image : String) : String :=
  os_path_join save_dir ("z_fg_" ++ (os_path_splitext (os_path_basename target_image)).1 ++ ".pt")

/-- The input-loading part of main in cli_invert_target.py: read and decode
the target image, then the mask image, in source order. -/
def cli_load (env : ExtModels) (fs : FS) (target_image mask : String) :
    Except ErrKind (PILImage × PILImage) :=
  match fs.read target_image with
  | none => .error .FileNotFound
  | some tb =>
    match env.decodeImage tb with
    | none => .error .DecodeError
    | some ti =>
      match fs.read mask with
      | none => .error .FileNotFound
      | some mb =>
        match env.decodeImage mb with
        | none => .error .DecodeError
        | some mi => .ok (ti, mi)

/-- The foreground latent computed by main of cli_invert_target.py: encode
the preprocessed 512 by 512 target, cast to bfloat16, and mask. -/
def cli_compute (env : ExtModels) (ti mi : PILImage) : Tensor4 ℚ :=
  make_z_fg ((env.encode (preprocess_image ti (512, 512))).map env.toBFloat16) (load_mask mi)

/-- main of cli_invert_target.py over the abstract filesystem: the error
kind, if any, and the resulting filesystem. -/
def cli_main (env : ExtModels) (fs : FS) (target_image mask save_dir : String) :
    Option ErrKind × FS :=
  match cli_load env fs target_image mask with
  | .error e => (some e, fs)
  | .ok (ti, mi) =>
    match os_makedirs fs save_dir with
    | .error e => (some e, fs)
    | .ok fs2 =>
      (none, fs2.write (cli_save_path save_dir target_image) (env.serialize (cli_compute env ti mi)))

/-- run_edit_from_latent of the runner module over the abstract filesystem:
read and preprocess the source image, encode it to z_bg, load z_fg with
torch.load (a missing or unreadable latent file is the DeserializationError
kind of spec section 7), load the mask, prepare the conditioning, build the
info bundle with the feature cache, denoise, decode, create the parent
directory of the save path, and write the output image. -/
def run_edit_from_latent (env : ExtModels) (fs : FS)
    (src_image_path z_fg_path mask_path : String) (opts : SamplingOptions)
    (save_path : String) (t_step : Int) : Option ErrKind × FS :=
  match fs.read src_image_path with
  | none => (some .FileNotFound, fs)
  | some sb =>
    match env.decodeImage sb with
    | none => (some .DecodeError, fs)
    | some si =>
      let x_src := preprocess_image si (512, 512)
      let z_bg := (env.encode x_src).map env.toFloat32
      match fs.read z_fg_path with
      | none => (some .DeserializationError, fs)
      | some zb =>
        match env.deserialize zb with
        | none => (some .DeserializationError, fs)
        | some z0 =>
          let z_fg := z0.map env.toFloat32
          match fs.read mask_path with
          | none => (some .FileNotFound, fs)
          | some mb =>
            match env.decodeImage mb with
            | none => (some .DecodeError, fs)
            | some mi =>
              let mask := load_mask mi
              let inp_target := env.prepare z_bg opts.target_prompt
              let info : Info := ⟨t_step, feature_dict String z_bg⟩
              let result := env.denoise z_bg z_fg inp_target mask opts info
              let out := to_uint8_hwc (env.decode result)
              match os_makedirs fs (os_path_dirname save_path) with
              | .error e => (some e, fs)
              | .ok fs2 => (none, fs2.write save_path (env.imageBytes out))

/-- The names bound at module top level of the runner before its def of
run_edit_from_latent executes: the bindings of its ten module-level import
statements, the two earlier function definitions, and the builtins the def
line mentions. -/
def kvedit_runner_scope : List String :=
  ["os", "Image", "np", "torch", "defaultdict", "rearrange",
   "load_ae", "load_clip", "load_t5", "prepare", "Flux_kv_edit", "F",
   "preprocess_image", "load_mask",
   "int", "str", "float", "bool"]

/-- The names occurring in the parameter type hints of run_edit_from_latent:
SamplingOptions for opts and int for t_step. -/
def run_edit_hint_names : List String :=
  ["SamplingOptions", "int"]

/-- The first name of a list that the scope cannot resolve. -/
def firstUnresolved (scope names : List String) : Option String :=
  names.find? (fun n => !(scope.contains n))

/-- Evaluating the def statement of run_edit_from_latent when the module
loads: under eager evaluation of parameter type hints (the CPython default;
the module has no future-annotations directive) every name in the hints is
resolved when the def executes, and an unresolvable name raises NameError. -/
def kvedit_runner_module_load : Except PyErr Unit :=
  match firstUnresolved kvedit_runner_scope run_edit_hint_names with
  | some n => .error (.nameError n)
  | none => .ok ()

/- ===== Helper lemmas and concrete instances shared by the witnesses ===== -/

/-- Reading back the just-written path yields the written bytes. -/
theorem FS.read_write_same (fs : FS) (p : String) (bs : List Nat) :
    (fs.write p bs).read p = some bs := by
  simp [FS.read, FS.write, List.lookup]

/-- Writing one path leaves every other path unchanged. -/
theorem FS.read_write_of_ne (fs : FS) (p q : String) (bs : List Nat) (h : q ≠ p) :
    (fs.write p bs).read q = fs.read q := by
  have hb : (q == p) = false := beq_eq_false_iff_ne.mpr h
  simp [FS.read, FS.write, List.lookup, hb]

/-- A character absent from a list has no last index in it. -/
theorem lastIdxOf_eq_none (cs : List Char) (ch : Char) (h : ∀ c ∈ cs, c ≠ ch) :
    lastIdxOf cs ch = none := by
  induction cs with
  | nil => rfl
  | cons c rest ih =>
    have hr : lastIdxOf rest ch = none := ih fun x hx => h x (List.mem_cons_of_mem _ hx)
    have hc : ¬ c = ch := h c (List.mem_cons_self _ _)
    simp [lastIdxOf, hr, hc]

/-- A path without a slash has the empty dirname. -/
theorem os_path_dirname_eq_empty (p : String) (h : ∀ c ∈ p.data, c ≠ '/') :
    os_path_dirname p = "" := by
  unfold os_path_dirname
  rw [lastIdxOf_eq_none p.data _ h]

/-- An 8-bit channel value rescaled by division by 127.5 minus 1 lies in the
range from -1 to 1. -/
theorem norm_pixel_mem (v : Nat) (hv : v ≤ 255) :
    -1 ≤ (v : ℚ) / 127.5 - 1 ∧ (v : ℚ) / 127.5 - 1 ≤ 1 := by
  constructor
  · have h0 : (0 : ℚ) ≤ (v : ℚ) / 127.5 := by positivity
    linarith
  · have h255 : ((v : ℚ)) ≤ 255 := by exact_mod_cast hv
    have h2 : (v : ℚ) / 127.5 ≤ 2 := by
      rw [div_le_iff₀ (by norm_num : (0 : ℚ) < 127.5)]
      linarith
    linarith

/-- Every channel of a valid pixel is an 8-bit value. -/
theorem channel_le_255 (p : RGBA) (hp : p.Valid) (c : Nat) : p.channel c ≤ 255 := by
  rcases hp with ⟨h1, h2, h3, h4⟩
  unfold RGBA.channel
  split
  · exact h1
  · split
    · exact h2
    · split
      · exact h3
      · exact Nat.zero_le 255

/-- A concrete RGBA image used by the witnesses. -/
def wImg : PILImage := ⟨64, 64, true, fun _ _ => ⟨1, 2, 3, 200⟩⟩

/-- A concrete latent tensor used by the witnesses. -/
def wZero4 : Tensor4 ℚ := ⟨1, 1, 64, 64, fun _ _ _ _ => 0⟩

/-- A concrete choice of the external collaborators used by the witnesses. -/
def wEnv : ExtModels :=
  ⟨fun _ => some wImg, fun t => t, fun q => q, fun q => q, fun _ => [7],
   fun _ => some wZero4, fun _ _ => [], fun z _ _ _ _ _ => z, fun t => t, fun _ => [9]⟩

/- ===== The claims ===== -/

/-- Claim C1: the feature cache built before denoising is an empty mapping,
but looking up an absent key does not return a zero tensor shaped like z_bg:
defaultdict calls its factory with zero arguments while the lambda of line 58
demands one argument, so every lookup of a missing key raises TypeError.
This theorem records the actual behavior at the failing input. -/
theorem feature_dict_getitem_type_error (z_bg : Tensor4 ℚ) (k : String) :
    (feature_dict String z_bg).entries = [] ∧
    (feature_dict String z_bg).getItem k = .error .typeError :=
  ⟨rfl, rfl⟩

/-- Claim C2: the claim says a mask image without an alpha channel makes the
loader fail with InvalidMask; instead the code converts the image to RGBA,
which fills the alpha channel with 255 on every pixel, so the loader returns
the all-true (fully opaque) mask for every such image. -/
theorem load_mask_no_alpha_all_true (w hgt : Nat) (px : Nat → Nat → RGBA) (y x : Nat) :
    (load_mask ⟨w, hgt, false, px⟩).val 0 0 y x = true := rfl

/-- Claim C3: for every RGBA mask image the loader returns a boolean tensor
of shape (1, 1, 64, 64) whose entries threshold the alpha channel of the
image resized to 64 by 64 strictly against 128; an alpha of exactly 128 maps
to false and an alpha of 129 maps to true. -/
theorem load_mask_rgba_spec (img : PILImage) (h : img.hasAlpha = true) :
    ((load_mask img).d0 = 1 ∧ (load_mask img).d1 = 1 ∧
      (load_mask img).d2 = 64 ∧ (load_mask img).d3 = 64)
    ∧ (∀ y x : Nat, (load_mask img).val 0 0 y x
        = decide (((img.resize (64, 64)).px y x).a > 128))
    ∧ (∀ y x : Nat, ((img.resize (64, 64)).px y x).a = 128 →
        (load_mask img).val 0 0 y x = false)
    ∧ (∀ y x : Nat, ((img.resize (64, 64)).px y x).a = 129 →
        (load_mask img).val 0 0 y x = true) := by
  have hc : img.convertRGBA = img := by simp [PILImage.convertRGBA, h]
  refine ⟨⟨rfl, rfl, rfl, rfl⟩, ?_, ?_, ?_⟩
  · intro y x
    simp [load_mask, hc, np_alpha, Tensor2.unsqueeze0, Tensor3.unsqueeze0, Tensor4.map]
  · intro y x ha
    simp [load_mask, hc, np_alpha, Tensor2.unsqueeze0, Tensor3.unsqueeze0, Tensor4.map, ha]
  · intro y x ha
    simp [load_mask, hc, np_alpha, Tensor2.unsqueeze0, Tensor3.unsqueeze0, Tensor4.map, ha]

/-- A concrete RGBA mask whose alpha is 128 at column 0 and 129 elsewhere. -/
def wMaskImg : PILImage := ⟨64, 64, true, fun _ x => ⟨0, 0, 0, if x = 0 then 128 else 129⟩⟩

/-- Witness for load_mask_rgba_spec at a concrete RGBA mask. -/
theorem load_mask_rgba_spec_witness :
    (load_mask wMaskImg).val 0 0 0 0 = false ∧ (load_mask wMaskImg).val 0 0 0 1 = true :=
  ⟨(load_mask_rgba_spec wMaskImg rfl).2.2.1 0 0 rfl,
   (load_mask_rgba_spec wMaskImg rfl).2.2.2 0 1 rfl⟩

/-- Claim C4: z_fg is the zero tensor of the shape of the encoded latent with
values copied from the latent exactly where the channel-broadcast mask holds;
hence an all-false mask gives the all-zero tensor and an all-true mask gives
the latent itself. -/
theorem make_z_fg_spec {α : Type} [Zero α] (z_tgt : Tensor4 α) (mask : Tensor4 Bool) :
    ((make_z_fg z_tgt mask).d0 = z_tgt.d0 ∧ (make_z_fg z_tgt mask).d1 = z_tgt.d1 ∧
      (make_z_fg z_tgt mask).d2 = z_tgt.d2 ∧ (make_z_fg z_tgt mask).d3 = z_tgt.d3)
    ∧ (∀ b c y x, (make_z_fg z_tgt mask).val b c y x
        = if (mask.expand_as z_tgt).val b c y x then z_tgt.val b c y x else 0)
    ∧ ((∀ b c y x, mask.val b c y x = false) →
        ∀ b c y x, (make_z_fg z_tgt mask).val b c y x = 0)
    ∧ ((∀ b c y x, mask.val b c y x = true) →
        ∀ b c y x, (make_z_fg z_tgt mask).val b c y x = z_tgt.val b c y x) := by
  refine ⟨⟨rfl, rfl, rfl, rfl⟩, fun b c y x => rfl, ?_, ?_⟩
  · intro hAll b c y x
    simp [make_z_fg, masked_assign, torch_zeros_like, Tensor4.expand_as, hAll]
  · intro hAll b c y x
    simp [make_z_fg, masked_assign, Tensor4.expand_as, hAll]

/-- A concrete latent tensor for the make_z_fg witness. -/
def wLatent : Tensor4 ℚ := ⟨1, 16, 64, 64, fun _ _ _ _ => 5⟩

/-- The all-false mask tensor. -/
def wMaskFalse : Tensor4 Bool := ⟨1, 1, 64, 64, fun _ _ _ _ => false⟩

/-- The all-true mask tensor. -/
def wMaskTrue : Tensor4 Bool := ⟨1, 1, 64, 64, fun _ _ _ _ => true⟩

/-- Witness for make_z_fg_spec at concrete tensors. -/
theorem make_z_fg_spec_witness :
    (make_z_fg wLatent wMaskFalse).val 0 0 0 0 = 0 ∧
    (make_z_fg wLatent wMaskTrue).val 0 0 0 0 = wLatent.val 0 0 0 0 :=
  ⟨(make_z_fg_spec wLatent wMaskFalse).2.2.1 (fun _ _ _ _ => rfl) 0 0 0 0,
   (make_z_fg_spec wLatent wMaskTrue).2.2.2 (fun _ _ _ _ => rfl) 0 0 0 0⟩

/-- Claim C5: when the source image is readable and decodable but z_fg_path
names no existing file, run_edit_from_latent fails with the
DeserializationError kind and returns the filesystem unchanged, so the output
image path is neither created nor overwritten. -/
theorem run_edit_missing_z_fg (env : ExtModels) (fs : FS)
    (src_image_path z_fg_path mask_path save_path : String)
    (opts : SamplingOptions) (t_step : Int) (sb : List Nat) (si : PILImage)
    (hs : fs.read src_image_path = some sb) (hd : env.decodeImage sb = some si)
    (hz : fs.read z_fg_path = none) :
    run_edit_from_latent env fs src_image_path z_fg_path mask_path opts save_path t_step
      = (some .DeserializationError, fs) ∧
    (run_edit_from_latent env fs src_image_path z_fg_path mask_path opts save_path t_step).2.read save_path
      = fs.read save_path := by
  have h1 : run_edit_from_latent env fs src_image_path z_fg_path mask_path opts save_path t_step
      = (some .DeserializationError, fs) := by
    simp [run_edit_from_latent, hs, hd, hz]
  exact ⟨h1, by rw [h1]⟩

/-- A filesystem with the source image present and the latent file absent. -/
def wFS5 : FS := ⟨[("src.png", [1])], []⟩

/-- Witness for run_edit_missing_z_fg at a concrete filesystem. -/
theorem run_edit_missing_z_fg_witness :
    run_edit_from_latent wEnv wFS5 "src.png" "z_fg_img.pt" "m.png" ⟨"a cat"⟩ "out/edit.png" 0
      = (some .DeserializationError, wFS5) :=
  (run_edit_missing_z_fg wEnv wFS5 "src.png" "z_fg_img.pt" "m.png" "out/edit.png"
    ⟨"a cat"⟩ 0 [1] wImg rfl rfl rfl).1

/-- A filesystem with the target image and the mask present. -/
def wFS6 : FS := ⟨[("img.png", [1]), ("m.png", [2])], []⟩

/-- Claim C6 counterexample: for target image img.png and save directory
latents, the run succeeds and yet the path the claim names, the save
directory joined with z_fg_ followed by the full basename followed by the
suffix, receives no file; the latent lands at the extension-stripped path
instead. -/
theorem cli_save_path_cex :
    (cli_main wEnv wFS6 "img.png" "m.png" "latents").1 = none ∧
    (cli_main wEnv wFS6 "img.png" "m.png" "latents").2.read
      (os_path_join "latents" ("z_fg_" ++ os_path_basename "img.png" ++ ".pt")) = none ∧
    (cli_main wEnv wFS6 "img.png" "m.png" "latents").2.read "latents/z_fg_img.pt" = some [7] :=
  ⟨rfl, rfl, rfl⟩

/-- Claim C6 amended: the extractor persists the serialized foreground latent
at exactly the save directory joined with z_fg_ followed by the
extension-stripped basename of the target image followed by the suffix, and
it records creation of the save directory; stated with the two image loads
succeeding and a nonempty save directory. -/
theorem cli_save_path_amended (env : ExtModels) (fs : FS)
    (target_image mask save_dir : String) (tb mb : List Nat) (ti mi : PILImage)
    (ht : fs.read target_image = some tb) (hti : env.decodeImage tb = some ti)
    (hm : fs.read mask = some mb) (hmi : env.decodeImage mb = some mi)
    (hsd : save_dir ≠ "") :
    (cli_main env fs target_image mask save_dir).1 = none ∧
    (cli_main env fs target_image mask save_dir).2.read
        (os_path_join save_dir
          ("z_fg_" ++ (os_path_splitext (os_path_basename target_image)).1 ++ ".pt"))
      = some (env.serialize (cli_compute env ti mi)) ∧
    save_dir ∈ (cli_main env fs target_image mask save_dir).2.dirs := by
  have hload : cli_load env fs target_image mask = .ok (ti, mi) := by
    simp [cli_load, ht, hti, hm, hmi]
  have hmk : os_makedirs fs save_dir = .ok { fs with dirs := save_dir :: fs.dirs } := by
    simp [os_makedirs, hsd]
  have hrun : cli_main env fs target_image mask save_dir
      = (none, FS.write { fs with dirs := save_dir :: fs.dirs }
          (cli_save_path save_dir target_image) (env.serialize (cli_compute env ti mi))) := by
    simp [cli_main, hload, hmk]
  refine ⟨by rw [hrun], ?_, ?_⟩
  · rw [hrun]
    exact FS.read_write_same _ _ _
  · rw [hrun]
    exact List.mem_cons_self _ _

/-- Witness for cli_save_path_amended at concrete inputs. -/
theorem cli_save_path_amended_witness :
    (cli_main wEnv wFS6 "img.png" "m.png" "latents").1 = none ∧
    (cli_main wEnv wFS6 "img.png" "m.png" "latents").2.read
        (os_path_join "latents"
          ("z_fg_" ++ (os_path_splitext (os_path_basename "img.png")).1 ++ ".pt"))
      = some (wEnv.serialize (cli_compute wEnv wImg wImg)) ∧
    "latents" ∈ (cli_main wEnv wFS6 "img.png" "m.png" "latents").2.dirs :=
  cli_save_path_amended wEnv wFS6 "img.png" "m.png" "latents" [1] [2] wImg wImg
    rfl rfl rfl rfl (by decide)

/-- A concrete one-pixel RGB image. -/
def wRGBImg : PILImage := ⟨1, 1, false, fun _ _ => ⟨255, 0, 10, 0⟩⟩

/-- Claim C7 counterexample: for the requested size pair (2, 3) the claim
predicts output shape (1, 3, 2, 3), but the pair reaches the image library in
(width, height) order, so the output shape is (1, 3, 3, 2). -/
theorem preprocess_shape_cex :
    ¬ ((preprocess_image wRGBImg (2, 3)).d2 = 2 ∧ (preprocess_image wRGBImg (2, 3)).d3 = 3) := by
  decide

/-- Claim C7 amended: for every valid RGB image the preprocessor output has
shape (1, 3, s2, s1) for the requested pair (s1, s2), since the image library
reads the pair as width then height, and every element lies in the range from
-1 to 1. -/
theorem preprocess_image_spec (img : PILImage) (size : Nat × Nat) (h : img.Valid) :
    ((preprocess_image img size).d0 = 1 ∧ (preprocess_image img size).d1 = 3 ∧
      (preprocess_image img size).d2 = size.2 ∧ (preprocess_image img size).d3 = size.1)
    ∧ ∀ b c y x, -1 ≤ (preprocess_image img size).val b c y x ∧
        (preprocess_image img size).val b c y x ≤ 1 := by
  refine ⟨⟨rfl, rfl, rfl, rfl⟩, ?_⟩
  intro b c y x
  have hval : (preprocess_image img size).val b c y x
      = ((((img.convertRGB).resize size).px y x).channel c : ℚ) / 127.5 - 1 := rfl
  rw [hval]
  apply norm_pixel_mem
  apply channel_le_255
  rcases h (y * img.height / size.2) (x * img.width / size.1) with ⟨h1, h2, h3, h4⟩
  exact ⟨h1, h2, h3, Nat.le.refl⟩

/-- Witness for preprocess_image_spec at a concrete image and size. -/
theorem preprocess_image_spec_witness :
    ((preprocess_image wRGBImg (2, 3)).d2 = 3 ∧ (preprocess_image wRGBImg (2, 3)).d3 = 2) ∧
    (-1 ≤ (preprocess_image wRGBImg (2, 3)).val 0 0 0 0 ∧
      (preprocess_image wRGBImg (2, 3)).val 0 0 0 0 ≤ 1) := by
  have hv : wRGBImg.Valid := by
    intro y x
    show 255 ≤ 255 ∧ 0 ≤ 255 ∧ 10 ≤ 255 ∧ 0 ≤ 255
    decide
  have hmain := preprocess_image_spec wRGBImg (2, 3) hv
  exact ⟨⟨hmain.1.2.2.1, hmain.1.2.2.2⟩, hmain.2 0 0 0 0⟩

/-- Claim C8: running the extractor a second time, on the filesystem a first
successful run produced, writes byte-identical latent bytes at the save path,
the external encoder being a fixed deterministic function; stated with the
two image loads succeeding, a nonempty save directory, and the two input
paths distinct from the save path. -/
theorem cli_idempotent (env : ExtModels) (fs : FS) (target_image mask save_dir : String)
    (tb mb : List Nat) (ti mi : PILImage)
    (ht : fs.read target_image = some tb) (hti : env.decodeImage tb = some ti)
    (hm : fs.read mask = some mb) (hmi : env.decodeImage mb = some mi)
    (hsd : save_dir ≠ "")
    (htne : target_image ≠ cli_save_path save_dir target_image)
    (hmne : mask ≠ cli_save_path save_dir target_image) :
    ∃ bs : List Nat,
      (cli_main env fs target_image mask save_dir).2.read (cli_save_path save_dir target_image)
        = some bs ∧
      (cli_main env (cli_main env fs target_image mask save_dir).2 target_image mask save_dir).2.read
        (cli_save_path save_dir target_image) = some bs := by
  have hload : cli_load env fs target_image mask = .ok (ti, mi) := by
    simp [cli_load, ht, hti, hm, hmi]
  have hmk : os_makedirs fs save_dir = .ok { fs with dirs := save_dir :: fs.dirs } := by
    simp [os_makedirs, hsd]
  have hrun1 : cli_main env fs target_image mask save_dir
      = (none, FS.write { fs with dirs := save_dir :: fs.dirs }
          (cli_save_path save_dir target_image) (env.serialize (cli_compute env ti mi))) := by
    simp [cli_main, hload, hmk]
  set fs1 := FS.write { fs with dirs := save_dir :: fs.dirs }
      (cli_save_path save_dir target_image) (env.serialize (cli_compute env ti mi)) with hfs1
  have ht2 : fs1.read target_image = some tb := by
    rw [hfs1, FS.read_write_of_ne _ _ _ _ htne]
    exact ht
  have hm2 : fs1.read mask = some mb := by
    rw [hfs1, FS.read_write_of_ne _ _ _ _ hmne]
    exact hm
  have hload2 : cli_load env fs1 target_image mask = .ok (ti, mi) := by
    simp [cli_load, ht2, hti, hm2, hmi]
  have hmk2 : os_makedirs fs1 save_dir = .ok { fs1 with dirs := save_dir :: fs1.dirs } := by
    simp [os_makedirs, hsd]
  have hrun2 : cli_main env fs1 target_image mask save_dir
      = (none, FS.write { fs1 with dirs := save_dir :: fs1.dirs }
          (cli_save_path save_dir target_image) (env.serialize (cli_compute env ti mi))) := by
    simp [cli_main, hload2, hmk2]
  refine ⟨env.serialize (cli_compute env ti mi), ?_, ?_⟩
  · rw [hrun1]
    exact FS.read_write_same _ _ _
  · rw [hrun1]
    show (cli_main env fs1 target_image mask save_dir).2.read
        (cli_save_path save_dir target_image) = some (env.serialize (cli_compute env ti mi))
    rw [hrun2]
    exact FS.read_write_same _ _ _

/-- Witness for cli_idempotent at concrete inputs. -/
theorem cli_idempotent_witness :
    ∃ bs : List Nat,
      (cli_main wEnv wFS6 "img.png" "m.png" "latents").2.read (cli_save_path "latents" "img.png")
        = some bs ∧
      (cli_main wEnv (cli_main wEnv wFS6 "img.png" "m.png" "latents").2 "img.png" "m.png" "latents").2.read
        (cli_save_path "latents" "img.png") = some bs :=
  cli_idempotent wEnv wFS6 "img.png" "m.png" "latents" [1] [2] wImg wImg
    rfl rfl rfl rfl (by decide) (by decide) (by decide)

/-- Claim C9: evaluating the def statement of run_edit_from_latent at module
load resolves the names in its parameter type hints; SamplingOptions is
neither imported nor defined anywhere in the module, so loading the module
fails with NameError on that name, before any call can happen. -/
theorem kvedit_runner_load_name_error :
    kvedit_runner_module_load = .error (.nameError "SamplingOptions") ∧
    kvedit_runner_scope.contains "SamplingOptions" = false :=
  ⟨rfl, rfl⟩

/-- A filesystem holding the source image, the latent file and the mask. -/
def wFS10 : FS := ⟨[("src.png", [1]), ("z_fg_img.pt", [3]), ("m.png", [2])], []⟩

/-- Claim C10: when save_path contains no directory separator its dirname is
the empty string, so the parent-directory creation of line 67 is invoked with
the empty string and fails, the runner errors, and nothing is written: the
decoded image cannot be saved under a bare filename; stated with every
earlier step succeeding. -/
theorem run_edit_bare_filename_save_fails (env : ExtModels) (fs : FS)
    (src_image_path z_fg_path mask_path save_path : String)
    (opts : SamplingOptions) (t_step : Int)
    (sb zb mb : List Nat) (si mi : PILImage) (z0 : Tensor4 ℚ)
    (hs : fs.read src_image_path = some sb) (hsd : env.decodeImage sb = some si)
    (hz : fs.read z_fg_path = some zb) (hzd : env.deserialize zb = some z0)
    (hm : fs.read mask_path = some mb) (hmd : env.decodeImage mb = some mi)
    (hbare : ∀ c ∈ save_path.data, c ≠ '/') :
    os_path_dirname save_path = "" ∧
    run_edit_from_latent env fs src_image_path z_fg_path mask_path opts save_path t_step
      = (some .FileNotFound, fs) := by
  have hdd : os_path_dirname save_path = "" := os_path_dirname_eq_empty save_path hbare
  refine ⟨hdd, ?_⟩
  simp [run_edit_from_latent, hs, hsd, hz, hzd, hm, hmd, hdd, os_makedirs]

/-- Witness for run_edit_bare_filename_save_fails with a bare output name. -/
theorem run_edit_bare_filename_save_fails_witness :
    os_path_dirname "out.png" = "" ∧
    run_edit_from_latent wEnv wFS10 "src.png" "z_fg_img.pt" "m.png" ⟨"a cat"⟩ "out.png" 0
      = (some .FileNotFound, wFS10) :=
  run_edit_bare_filename_save_fails wEnv wFS10 "src.png" "z_fg_img.pt" "m.png" "out.png"
    ⟨"a cat"⟩ 0 [1] [3] [2] wImg wImg wZero4 rfl rfl rfl rfl rfl rfl (by decide)
